import Mathlib

/-!
Verification of the ghost-bus anomaly-detection core: a shallow embedding of
the detector (`backend/app/detector.py`) and the reputation-tracking part of
the storage layer (`backend/app/storage.py`), followed by theorems settling
the specification claims.

Modelling conventions: Python dict samples become a structure of optional
fields (a missing dict key is `none`); the Redis-backed per-vehicle history
and the per-vehicle reputation table become maps keyed by vehicle id;
exceptions raised part-way through `analyze_vehicle` are modelled by
returning the mutated state together with an `Except` error, since the
history mutation performed before the raise persists in Redis.  Numeric
fields are modelled by `ℚ` (exact arithmetic in place of IEEE floats); the
transcendental haversine computation is modelled over `ℝ`.
-/

namespace GhostBus

/-- One vehicle position report, as parsed by the ingester.  Every field a
claim touches is optional, mirroring a Python dict whose keys may be
absent. -/
structure Sample where
  vehicle_id : Option String := none
  trip_id : Option String := none
  route_id : Option String := none
  lat : Option ℚ := none
  lon : Option ℚ := none
  timestamp : Option ℚ := none
  speed : Option ℚ := none
  bearing : Option ℚ := none
deriving DecidableEq

/-- Python's `math.radians`. -/
noncomputable def radians (x : ℝ) : ℝ := x * Real.pi / 180

/-- Python's `math.atan2 y x`, i.e. the argument of the complex number
`x + y*I`. -/
noncomputable def atan2 (y x : ℝ) : ℝ := Complex.arg ⟨x, y⟩

/-- `GhostBusDetector.haversine_distance`: great-circle distance in km,
Earth radius 6371 km. -/
noncomputable def haversine_distance (lat1 lon1 lat2 lon2 : ℚ) : ℝ :=
  let R : ℝ := 6371
  let dlat := radians ((lat2 : ℝ) - (lat1 : ℝ))
  let dlon := radians ((lon2 : ℝ) - (lon1 : ℝ))
  let a := Real.sin (dlat / 2) * Real.sin (dlat / 2) +
    Real.cos (radians (lat1 : ℝ)) * Real.cos (radians (lat2 : ℝ)) *
      Real.sin (dlon / 2) * Real.sin (dlon / 2)
  let c := 2 * atan2 (Real.sqrt a) (Real.sqrt (1 - a))
  R * c

/-- Per-vehicle position history (the Redis lists keyed by
`vehicle:history:{vehicle_id}`). -/
abbrev HistMap := String → List Sample

/-- `GhostBusDetector.update_vehicle_history`: LPUSH the sample, then
LTRIM to the 50 most recent entries. -/
def update_vehicle_history (m : HistMap) (vehicle_id : String)
    (vehicle_data : Sample) : HistMap :=
  fun k => if k = vehicle_id then (vehicle_data :: m vehicle_id).take 50 else m k

/-- `GhostBusDetector.detect_stale_data`: stale iff `now - timestamp > 300`,
with a missing timestamp defaulting to `now`. -/
def detect_stale_data (vehicle_data : Sample) (now : ℚ) : Bool :=
  let last_update := vehicle_data.timestamp.getD now
  decide (now - last_update > 300)

/-- The loop body of `detect_stationary` that collects `(lat, lon)` pairs of
history entries within the stationary window; accessing a missing `lat` or
`lon` key of a qualifying entry raises a KeyError, modelled as an error
naming the missing key.  A missing timestamp defaults to 0. -/
def recentPositions (history : List Sample) (now : ℚ) :
    Except String (List (ℚ × ℚ)) :=
  match history with
  | [] => .ok []
  | d :: rest =>
    if now - d.timestamp.getD 0 ≤ 600 then
      match d.lat with
      | none => .error "lat"
      | some la =>
        match d.lon with
        | none => .error "lon"
        | some lo => Except.map (fun tl => (la, lo) :: tl) (recentPositions rest now)
    else recentPositions rest now

/-- `GhostBusDetector.detect_stationary`: false with fewer than 2 history
entries; otherwise gather the positions of entries within the last 600 s,
return false with fewer than 2 of those, and otherwise check that every
gathered position is within 0.05 km of the first gathered position.  The
`current_pos` argument is unused, exactly as in the source. -/
noncomputable def detect_stationary (m : HistMap) (vehicle_id : String)
    (current_pos : ℚ × ℚ) (now : ℚ) : Except String Bool :=
  let history := m vehicle_id
  if history.length < 2 then .ok false
  else
    Except.map
      (fun recent_positions =>
        if recent_positions.length < 2 then false
        else
          match recent_positions with
          | [] => false
          | first_pos :: rest =>
            rest.all fun pos =>
              ! decide (haversine_distance first_pos.1 first_pos.2 pos.1 pos.2 > 0.05))
      (recentPositions history now)

/-- `GhostBusDetector.detect_off_route`: disabled, always false. -/
def detect_off_route (_vehicle_data : Sample) : Bool := false

/-- `GhostBusDetector.calculate_ghost_score`: sum the weights of the rules
that fire (stale +40, stationary +30, off-route +30, speed anomaly +20 for
`speed > 80` or `speed < 0`, defaulting a missing speed to 0) and cap at
100.  The current sample's `lat`/`lon` are read to build the position passed
to `detect_stationary`, so their absence raises before that rule runs. -/
noncomputable def calculate_ghost_score (m : HistMap) (vehicle_data : Sample)
    (vehicle_id : String) (now : ℚ) : Except String ℤ :=
  let score1 : ℤ := if detect_stale_data vehicle_data now then 40 else 0
  match vehicle_data.lat with
  | none => .error "lat"
  | some la =>
    match vehicle_data.lon with
    | none => .error "lon"
    | some lo =>
      Except.map
        (fun stationary =>
          let score2 := score1 + (if stationary then 30 else 0)
          let score3 := score2 + (if detect_off_route vehicle_data then 30 else 0)
          let speed := vehicle_data.speed.getD 0
          let score4 := score3 + (if speed > 80 ∨ speed < 0 then 20 else 0)
          min score4 100)
        (detect_stationary m vehicle_id (la, lo) now)

/-- One row of the `recurring_ghosts` table
(`storage.RecurringGhost`). -/
structure RepRecord where
  total_flags : ℕ := 0
  first_flag_time : Option ℚ := none
  last_flag_time : Option ℚ := none
  avg_ghost_score : ℚ := 0
  is_recurring : Bool := false
deriving DecidableEq

/-- The ghost-branch of `DatabaseStorage.update_recurring_ghost_stats`,
applied to one record: on a ghost event set `first_flag_time` if unset,
refresh `last_flag_time`, increment `total_flags`, fold the score into the
running average, and set `is_recurring` once `total_flags ≥ 5`; a non-ghost
event leaves the record unchanged. -/
def updateRecord (r : RepRecord) (ghost_score : ℤ) (is_ghost : Bool)
    (now : ℚ) : RepRecord :=
  if is_ghost then
    let total := r.total_flags + 1
    let avg : ℚ :=
      if total > 1 then
        (r.avg_ghost_score * ((total : ℚ) - 1) + (ghost_score : ℚ)) / (total : ℚ)
      else (ghost_score : ℚ)
    { r with
      first_flag_time := some (r.first_flag_time.getD now)
      last_flag_time := some now
      total_flags := total
      avg_ghost_score := avg
      is_recurring := if total ≥ 5 then true else r.is_recurring }
  else r

/-- The `recurring_ghosts` table, keyed by vehicle id. -/
abbrev RepMap := String → Option RepRecord

/-- `DatabaseStorage.update_recurring_ghost_stats`: look the vehicle's row
up, lazily creating a default row, then apply `updateRecord` and commit. -/
def update_recurring_ghost_stats (rm : RepMap) (vehicle_id : String)
    (ghost_score : ℤ) (is_ghost : Bool) (now : ℚ) : RepMap :=
  let r := (rm vehicle_id).getD {}
  fun k => if k = vehicle_id then some (updateRecord r ghost_score is_ghost now)
    else rm k

/-- Membership of a vehicle in `DatabaseStorage.get_recurring_ghosts` (7-day
window): its row exists, `is_recurring` is set, and `last_flag_time` is
within the last 7 days. -/
def vehicleRecurring (rm : RepMap) (vehicle_id : String) (now : ℚ) : Bool :=
  match rm vehicle_id with
  | none => false
  | some r =>
    r.is_recurring &&
      (match r.last_flag_time with
       | none => false
       | some t => decide (now - 7 * 86400 ≤ t))

/-- The shared mutable state `analyze_vehicle` touches: the Redis history
lists and the reputation table. -/
structure DetState where
  hist : HistMap
  rep : RepMap

/-- The enriched record `analyze_vehicle` returns: the input sample plus the
detection results. -/
structure Enriched where
  base : Sample
  ghost_score : ℤ
  is_ghost : Bool
  detection_timestamp : ℚ
  rule_stale : Bool
  rule_stationary : Bool
  rule_off_route : Bool
  is_recurring_ghost : Bool

/-- `GhostBusDetector.analyze_vehicle`: read `vehicle_id` (KeyError if
absent), record the sample into the history, score it, re-evaluate the
rules for the `detection_rules` dict, update the reputation row, and read
back recurring-ghost membership.  The first component of the result is the
state as left behind, including mutations performed before an error was
raised. -/
noncomputable def analyze_vehicle (st : DetState) (vehicle_data : Sample)
    (now : ℚ) : DetState × Except String Enriched :=
  match vehicle_data.vehicle_id with
  | none => (st, .error "vehicle_id")
  | some vehicle_id =>
    let hist1 := update_vehicle_history st.hist vehicle_id vehicle_data
    let st1 : DetState := { st with hist := hist1 }
    match calculate_ghost_score hist1 vehicle_data vehicle_id now with
    | .error e => (st1, .error e)
    | .ok ghost_score =>
      let is_ghost := decide (ghost_score > 50)
      match vehicle_data.lat with
      | none => (st1, .error "lat")
      | some la =>
        match vehicle_data.lon with
        | none => (st1, .error "lon")
        | some lo =>
          match detect_stationary hist1 vehicle_id (la, lo) now with
          | .error e => (st1, .error e)
          | .ok stationary =>
            let rep1 := update_recurring_ghost_stats st.rep vehicle_id ghost_score
              is_ghost now
            let st2 : DetState := { st1 with rep := rep1 }
            (st2, .ok
              { base := vehicle_data
                ghost_score := ghost_score
                is_ghost := is_ghost
                detection_timestamp := now
                rule_stale := detect_stale_data vehicle_data now
                rule_stationary := stationary
                rule_off_route := detect_off_route vehicle_data
                is_recurring_ghost := vehicleRecurring rep1 vehicle_id now })

/-- Keys present in the sample dict built by the ingester, in insertion
order, for whichever fields are present. -/
def sampleKeys (s : Sample) : List String :=
  (if s.vehicle_id.isSome then ["vehicle_id"] else []) ++
  (if s.trip_id.isSome then ["trip_id"] else []) ++
  (if s.route_id.isSome then ["route_id"] else []) ++
  (if s.lat.isSome then ["lat"] else []) ++
  (if s.lon.isSome then ["lon"] else []) ++
  (if s.timestamp.isSome then ["timestamp"] else []) ++
  (if s.speed.isSome then ["speed"] else []) ++
  (if s.bearing.isSome then ["bearing"] else [])

/-- The keys of the `detection_rules` dict literal built by
`analyze_vehicle`. -/
def detectionRuleKeys : List String := ["stale", "stationary", "off_route"]

/-- The keys of the enriched dict returned by `analyze_vehicle`: the copied
sample's keys plus the detection fields added by `update` and the
recurring-ghost flag. -/
def enrichedKeys (s : Sample) : List String :=
  sampleKeys s ++
    ["ghost_score", "is_ghost", "detection_timestamp", "detection_rules",
     "is_recurring_ghost"]

/-- The keys of the dict an enriched record stands for. -/
def Enriched.keys (e : Enriched) : List String := enrichedKeys e.base

/-- A history store with no entries for any vehicle. -/
def emptyHist : HistMap := fun _ => []

/-- The initial detector state: no history, no reputation rows. -/
def detInit : DetState := ⟨emptyHist, fun _ => none⟩

/-- Folding a stream of reputation observations (score, ghost verdict,
clock) through `updateRecord`, in stream order. -/
def observeFold (l : List (ℤ × Bool × ℚ)) (r : RepRecord) : RepRecord :=
  l.foldl (fun acc o => updateRecord acc o.1 o.2.1 o.2.2) r

/-- The scores of the ghost-flagged observations of a stream, in order. -/
def flaggedScores (l : List (ℤ × Bool × ℚ)) : List ℤ :=
  (l.filter fun o => o.2.1).map fun o => o.1

/-- Sum of a list of integer scores, as a rational. -/
def ratSum : List ℤ → ℚ
  | [] => 0
  | a :: l => (a : ℚ) + ratSum l

/-- The history entries `detect_stationary` treats as recent: those whose
timestamp (0 when missing) lies within the last 600 seconds of `now`. -/
def qualifying (history : List Sample) (now : ℚ) : List Sample :=
  history.filter fun d => decide (now - d.timestamp.getD 0 ≤ 600)

/-- The `(lat, lon)` pair of a history entry (defaulting missing
coordinates, which `recentPositions` never actually does for entries it
keeps). -/
def posOf (d : Sample) : ℚ × ℚ := (d.lat.getD 0, d.lon.getD 0)

/-- The scoring policy as the specification words it: sum the weights of
the fired rules and cap at 100.  Stated separately from
`calculate_ghost_score` so the score can be compared against it. -/
def sumCappedScore (stale stationary off_route anomaly : Bool) : ℤ :=
  min ((if stale then 40 else 0) + (if stationary then 30 else 0) +
    (if off_route then 30 else 0) + (if anomaly then 20 else 0)) 100

/-- The speed-anomaly test of `calculate_ghost_score`, as a named rule. -/
def speed_anomaly_rule (s : Sample) : Bool :=
  decide (s.speed.getD 0 > 80 ∨ s.speed.getD 0 < 0)

/-- A history store holding list `l` for vehicle `bus1` and nothing else. -/
def histAt (l : List Sample) : HistMap := fun v => if v = "bus1" then l else []

/-- A reputation table holding row `r` for vehicle `bus1` and nothing
else. -/
def repAt (r : RepRecord) : RepMap := fun v => if v = "bus1" then some r else none

/-- A scenario sample for vehicle `bus1`: fixed position (10, 20), speed 0,
full set of fields, with the given timestamp. -/
def scenarioSample (ts : ℚ) : Sample :=
  { vehicle_id := some "bus1", trip_id := some "trip1", route_id := some "route1",
    lat := some 10, lon := some 20, timestamp := some ts, speed := some 0,
    bearing := some 0 }

/-- The five end-to-end scenario samples (and a sixth), spaced 180 s apart,
each timestamped 400 s before its evaluation clock (clocks 10000, 10180,
10360, 10540, 10720, 10900). -/
def sam0 : Sample := scenarioSample 9600

/-- Second scenario sample. -/
def sam1 : Sample := scenarioSample 9780

/-- Third scenario sample. -/
def sam2 : Sample := scenarioSample 9960

/-- Fourth scenario sample. -/
def sam3 : Sample := scenarioSample 10140

/-- Fifth scenario sample. -/
def sam4 : Sample := scenarioSample 10320

/-- Sixth scenario sample. -/
def sam5 : Sample := scenarioSample 10500

/-- State and result after feeding the first scenario sample. -/
noncomputable def run1 : DetState × Except String Enriched :=
  analyze_vehicle detInit sam0 10000

/-- State and result after the second scenario sample. -/
noncomputable def run2 : DetState × Except String Enriched :=
  analyze_vehicle run1.1 sam1 10180

/-- State and result after the third scenario sample. -/
noncomputable def run3 : DetState × Except String Enriched :=
  analyze_vehicle run2.1 sam2 10360

/-- State and result after the fourth scenario sample. -/
noncomputable def run4 : DetState × Except String Enriched :=
  analyze_vehicle run3.1 sam3 10540

/-- State and result after the fifth scenario sample. -/
noncomputable def run5 : DetState × Except String Enriched :=
  analyze_vehicle run4.1 sam4 10720

/-- State and result after the sixth scenario sample. -/
noncomputable def run6 : DetState × Except String Enriched :=
  analyze_vehicle run5.1 sam5 10900

/-- Reputation row after 1 ghost flag of score 70 at clock 10180. -/
def rec1 : RepRecord := ⟨1, some 10180, some 10180, 70, false⟩

/-- Reputation row after 2 ghost flags. -/
def rec2 : RepRecord := ⟨2, some 10180, some 10360, 70, false⟩

/-- Reputation row after 3 ghost flags. -/
def rec3 : RepRecord := ⟨3, some 10180, some 10540, 70, false⟩

/-- Reputation row after 4 ghost flags. -/
def rec4 : RepRecord := ⟨4, some 10180, some 10720, 70, false⟩

/-- Reputation row after 5 ghost flags: now recurring. -/
def rec5 : RepRecord := ⟨5, some 10180, some 10900, 70, true⟩

/-- Enriched record for the first scenario sample: stale only, score 40,
not a ghost. -/
def enr0 : Enriched := ⟨sam0, 40, false, 10000, true, false, false, false⟩

/-- Enriched record for the second scenario sample: stale and stationary,
score 70, ghost. -/
def enr1 : Enriched := ⟨sam1, 70, true, 10180, true, true, false, false⟩

/-- Enriched record for the third scenario sample. -/
def enr2 : Enriched := ⟨sam2, 70, true, 10360, true, true, false, false⟩

/-- Enriched record for the fourth scenario sample. -/
def enr3 : Enriched := ⟨sam3, 70, true, 10540, true, true, false, false⟩

/-- Enriched record for the fifth scenario sample: score 70, ghost, not yet
recurring (only 4 accumulated flags). -/
def enr4 : Enriched := ⟨sam4, 70, true, 10720, true, true, false, false⟩

/-- Enriched record for the sixth scenario sample: the 5th ghost flag makes
the vehicle recurring. -/
def enr5 : Enriched := ⟨sam5, 70, true, 10900, true, true, false, true⟩

/-- A sample with `vehicle_id` and `lat` but no `lon`. -/
def samNoLon : Sample := { vehicle_id := some "v1", lat := some 10, timestamp := some 0 }

/-- A sample with `vehicle_id` and `lon` but no `lat`. -/
def samNoLat : Sample := { vehicle_id := some "v2", lon := some 2 }

/-- A sample with coordinates but no `vehicle_id`. -/
def samNoVid : Sample := { vehicle_id := none, lat := some 1, lon := some 2 }

section Helpers

lemma take_append_take (A B : List Sample) (m n : ℕ) (h : m ≤ n) :
    (A ++ B.take n).take m = (A ++ B).take m := by
  induction A generalizing m with
  | nil =>
    simp only [List.nil_append, List.take_take]
    rw [Nat.min_eq_left h]
  | cons a A ih =>
    cases m with
    | zero => simp
    | succ m =>
      simp only [List.cons_append, List.take_succ_cons]
      rw [ih m (Nat.le_of_succ_le h)]

lemma foldl_update_history (l : List Sample) (vehicle_id : String) :
    ∀ m : HistMap, (m vehicle_id).length ≤ 50 →
      (l.foldl (fun mm d => update_vehicle_history mm vehicle_id d) m) vehicle_id
        = (l.reverse ++ m vehicle_id).take 50 := by
  induction l with
  | nil =>
    intro m hm
    simpa using (List.take_of_length_le hm).symm
  | cons d l ih =>
    intro m hm
    have hlen : ((update_vehicle_history m vehicle_id d) vehicle_id).length ≤ 50 := by
      simp [update_vehicle_history]
    rw [List.foldl_cons, ih _ hlen]
    have hv : (update_vehicle_history m vehicle_id d) vehicle_id
        = (d :: m vehicle_id).take 50 := by
      simp [update_vehicle_history]
    rw [hv, take_append_take _ _ 50 50 (le_refl 50), List.reverse_cons,
      List.append_assoc, List.singleton_append]

lemma updateRecord_total_ghost (r : RepRecord) (s : ℤ) (now : ℚ) :
    (updateRecord r s true now).total_flags = r.total_flags + 1 := rfl

lemma updateRecord_is_recurring_ghost (r : RepRecord) (s : ℤ) (now : ℚ) :
    (updateRecord r s true now).is_recurring
      = if r.total_flags + 1 ≥ 5 then true else r.is_recurring := rfl

lemma updateRecord_avg_mul (r : RepRecord) (s : ℤ) (now : ℚ) :
    (updateRecord r s true now).avg_ghost_score * ((r.total_flags : ℚ) + 1)
      = r.avg_ghost_score * (r.total_flags : ℚ) + (s : ℚ) := by
  unfold updateRecord
  simp only [if_true]
  cases ht : r.total_flags with
  | zero => norm_num
  | succ t =>
    have h1 : t + 1 + 1 > 1 := by omega
    have h2 : ((t : ℚ) + 1 + 1) ≠ 0 := by positivity
    simp only [if_pos h1]
    push_cast
    field_simp

lemma observeFold_cons (o : ℤ × Bool × ℚ) (l : List (ℤ × Bool × ℚ))
    (r : RepRecord) :
    observeFold (o :: l) r = observeFold l (updateRecord r o.1 o.2.1 o.2.2) := rfl

lemma flaggedScores_cons_true (o : ℤ × Bool × ℚ) (l : List (ℤ × Bool × ℚ))
    (hg : o.2.1 = true) : flaggedScores (o :: l) = o.1 :: flaggedScores l := by
  simp only [flaggedScores, List.filter_cons, hg, if_true, List.map_cons]

lemma flaggedScores_cons_false (o : ℤ × Bool × ℚ) (l : List (ℤ × Bool × ℚ))
    (hg : o.2.1 = false) : flaggedScores (o :: l) = flaggedScores l := by
  simp only [flaggedScores, List.filter_cons, hg, Bool.false_eq_true, if_false]

lemma observeFold_total (l : List (ℤ × Bool × ℚ)) :
    ∀ r : RepRecord,
      (observeFold l r).total_flags = r.total_flags + (flaggedScores l).length := by
  induction l with
  | nil => intro r; simp [observeFold, flaggedScores]
  | cons o l ih =>
    intro r
    cases hg : o.2.1 with
    | false =>
      have hid : updateRecord r o.1 o.2.1 o.2.2 = r := by rw [hg]; rfl
      rw [observeFold_cons, hid, flaggedScores_cons_false o l hg, ih r]
    | true =>
      rw [observeFold_cons, hg, flaggedScores_cons_true o l hg,
        ih (updateRecord r o.1 true o.2.2), updateRecord_total_ghost]
      simp only [List.length_cons]
      omega

lemma observeFold_avg_mul (l : List (ℤ × Bool × ℚ)) :
    ∀ r : RepRecord,
      (observeFold l r).avg_ghost_score * ((observeFold l r).total_flags : ℚ)
        = r.avg_ghost_score * (r.total_flags : ℚ) + ratSum (flaggedScores l) := by
  induction l with
  | nil => intro r; simp [observeFold, flaggedScores, ratSum]
  | cons o l ih =>
    intro r
    cases hg : o.2.1 with
    | false =>
      have hid : updateRecord r o.1 o.2.1 o.2.2 = r := by rw [hg]; rfl
      rw [observeFold_cons, hid, flaggedScores_cons_false o l hg, ih r]
    | true =>
      rw [observeFold_cons, hg, flaggedScores_cons_true o l hg,
        ih (updateRecord r o.1 true o.2.2), updateRecord_total_ghost]
      have hmul : (updateRecord r o.1 true o.2.2).avg_ghost_score
          * ((r.total_flags : ℚ) + 1)
            = r.avg_ghost_score * (r.total_flags : ℚ) + (o.1 : ℚ) :=
        updateRecord_avg_mul r o.1 o.2.2
      have hcast : ((r.total_flags + 1 : ℕ) : ℚ) = (r.total_flags : ℚ) + 1 := by
        push_cast
        ring
      rw [hcast, hmul]
      show _ = _ + ((o.1 : ℚ) + ratSum (flaggedScores l))
      ring

lemma observeFold_recurring (l : List (ℤ × Bool × ℚ)) :
    ∀ r : RepRecord, r.is_recurring = decide (5 ≤ r.total_flags) →
      (observeFold l r).is_recurring = decide (5 ≤ (observeFold l r).total_flags) := by
  induction l with
  | nil => intro r h; simpa [observeFold] using h
  | cons o l ih =>
    intro r h
    cases hg : o.2.1 with
    | false =>
      have hid : updateRecord r o.1 o.2.1 o.2.2 = r := by rw [hg]; rfl
      rw [observeFold_cons, hid]
      exact ih r h
    | true =>
      rw [observeFold_cons, hg]
      refine ih _ ?_
      rw [updateRecord_is_recurring_ghost, updateRecord_total_ghost]
      by_cases h5 : r.total_flags + 1 ≥ 5
      · simp [h5]
      · have h5' : ¬ 5 ≤ r.total_flags := by omega
        simp [h5, h5', h]

lemma observeFold_no_flags (l : List (ℤ × Bool × ℚ)) :
    ∀ r : RepRecord, flaggedScores l = [] → observeFold l r = r := by
  induction l with
  | nil => intro r _; rfl
  | cons o l ih =>
    intro r hf
    cases hg : o.2.1 with
    | false =>
      have hid : updateRecord r o.1 o.2.1 o.2.2 = r := by rw [hg]; rfl
      rw [observeFold_cons, hid]
      refine ih r ?_
      rw [flaggedScores_cons_false o l hg] at hf
      exact hf
    | true =>
      exfalso
      rw [flaggedScores_cons_true o l hg] at hf
      exact List.cons_ne_nil _ _ hf

end Helpers

/-- C5: `detect_stale_data` is true iff `now - timestamp > 300`; a sample
with no timestamp is treated as fresh (timestamp `now`), hence never stale;
a sample exactly at the 300-second boundary is not stale. -/
theorem C5_stale_rule :
    (∀ (s : Sample) (now t : ℚ), s.timestamp = some t →
        (detect_stale_data s now = true ↔ now - t > 300)) ∧
    (∀ (s : Sample) (now : ℚ), s.timestamp = none →
        detect_stale_data s now = false) ∧
    (∀ (s : Sample) (now t : ℚ), s.timestamp = some t → now - t = 300 →
        detect_stale_data s now = false) := by
  refine ⟨?_, ?_, ?_⟩
  · intro s now t h
    simp [detect_stale_data, h]
  · intro s now h
    simp [detect_stale_data, h]
  · intro s now t h hb
    simp [detect_stale_data, h, hb]

/-- Witness for C5 at concrete samples: 400 s old is stale, 300 s old is
not, and a sample without a timestamp is not. -/
theorem C5_stale_rule_witness :
    detect_stale_data { timestamp := some 100 } 500 = true ∧
    detect_stale_data { timestamp := some 200 } 500 = false ∧
    detect_stale_data { timestamp := none } 500 = false :=
  ⟨(C5_stale_rule.1 _ 500 100 rfl).mpr (by norm_num),
   C5_stale_rule.2.2 _ 500 200 rfl (by norm_num),
   C5_stale_rule.2.1 _ 500 rfl⟩

/-- C9: after any sequence of `update_vehicle_history` calls for a vehicle
starting from an empty store, the vehicle's window is exactly the 50 most
recent pushes in most-recent-first push order — independent of the samples'
timestamp fields — and in particular its length never exceeds 50. -/
theorem C9_history_window :
    ∀ (l : List Sample) (vehicle_id : String),
      (l.foldl (fun m d => update_vehicle_history m vehicle_id d) emptyHist)
          vehicle_id = l.reverse.take 50 ∧
      ((l.foldl (fun m d => update_vehicle_history m vehicle_id d) emptyHist)
          vehicle_id).length ≤ 50 := by
  intro l vehicle_id
  have h := foldl_update_history l vehicle_id emptyHist (by simp [emptyHist])
  constructor
  · simpa [emptyHist] using h
  · rw [h]
    simpa using List.length_take_le 50 (l.reverse ++ emptyHist vehicle_id)

/-- C10: `detect_stationary` is independent of its current-position
argument: two calls differing only in that argument agree on every store
state, vehicle id and clock. -/
theorem C10_stationary_ignores_position :
    ∀ (m : HistMap) (vehicle_id : String) (p q : ℚ × ℚ) (now : ℚ),
      detect_stationary m vehicle_id p now = detect_stationary m vehicle_id q now := by
  intro m vehicle_id p q now
  rfl

/-- C7: non-ghost observations leave the reputation row unchanged; a ghost
observation updates the running average by the incremental rule
`avg' = (avg*(n-1)+score)/n` with `n` the post-increment flag count (with
the first flag setting `avg' = score`); consequently, after any observation
stream, `avg_ghost_score` is the arithmetic mean of exactly the
ghost-flagged scores (and 0 when there are none). -/
theorem C7_running_average :
    (∀ (r : RepRecord) (s : ℤ) (now : ℚ), updateRecord r s false now = r) ∧
    (∀ (r : RepRecord) (s : ℤ) (now : ℚ), r.total_flags = 0 →
        (updateRecord r s true now).avg_ghost_score = (s : ℚ)) ∧
    (∀ (r : RepRecord) (s : ℤ) (now : ℚ), 1 ≤ r.total_flags →
        (updateRecord r s true now).avg_ghost_score
          = (r.avg_ghost_score * (((r.total_flags + 1 : ℕ) : ℚ) - 1) + (s : ℚ))
              / ((r.total_flags + 1 : ℕ) : ℚ)) ∧
    (∀ l : List (ℤ × Bool × ℚ),
        (observeFold l {}).total_flags = (flaggedScores l).length ∧
        (flaggedScores l = [] → (observeFold l {}).avg_ghost_score = 0) ∧
        (flaggedScores l ≠ [] →
          (observeFold l {}).avg_ghost_score
            = ratSum (flaggedScores l) / ((flaggedScores l).length : ℚ))) := by
  refine ⟨fun r s now => rfl, ?_, ?_, ?_⟩
  · intro r s now h
    unfold updateRecord
    simp [h]
  · intro r s now h
    unfold updateRecord
    have h1 : r.total_flags + 1 > 1 := by omega
    simp only [if_true, if_pos h1]
  · intro l
    have htot : (observeFold l {}).total_flags = (flaggedScores l).length := by
      have h := observeFold_total l {}
      rw [h]
      simp
    refine ⟨htot, ?_, ?_⟩
    · intro hf
      rw [observeFold_no_flags l {} hf]
    · intro hf
      have hlen : (flaggedScores l).length ≠ 0 := by
        simpa [List.length_eq_zero] using hf
      have hQ : ((flaggedScores l).length : ℚ) ≠ 0 := by exact_mod_cast hlen
      have havg := observeFold_avg_mul l {}
      rw [htot] at havg
      have hz : ({} : RepRecord).avg_ghost_score * (({} : RepRecord).total_flags : ℚ)
          = 0 := by norm_num [RepRecord.avg_ghost_score]
      rw [hz, zero_add] at havg
      rw [eq_div_iff hQ]
      exact havg

/-- Witness for C7 at concrete rows: a non-ghost event is a no-op, the
first flag sets the average to the score, the second applies the
incremental formula, and a one-flag stream has mean 70. -/
theorem C7_running_average_witness :
    (updateRecord { total_flags := 3, avg_ghost_score := 60 } 7 false 0
        = { total_flags := 3, avg_ghost_score := 60 }) ∧
    ((updateRecord {} 70 true 0).avg_ghost_score = (70 : ℚ)) ∧
    ((updateRecord { total_flags := 1, avg_ghost_score := 70 } 80 true 5).avg_ghost_score
        = ((70 : ℚ) * (((1 + 1 : ℕ) : ℚ) - 1) + ((80 : ℤ) : ℚ)) / ((1 + 1 : ℕ) : ℚ)) ∧
    ((observeFold [((70 : ℤ), true, (0 : ℚ))] {}).total_flags
        = (flaggedScores [((70 : ℤ), true, (0 : ℚ))]).length) ∧
    ((observeFold [((70 : ℤ), true, (0 : ℚ))] {}).avg_ghost_score
        = ratSum (flaggedScores [((70 : ℤ), true, (0 : ℚ))])
            / ((flaggedScores [((70 : ℤ), true, (0 : ℚ))]).length : ℚ)) :=
  ⟨C7_running_average.1 _ 7 0,
   C7_running_average.2.1 _ 70 0 rfl,
   C7_running_average.2.2.1 _ 80 5 (by decide),
   (C7_running_average.2.2.2 _).1,
   (C7_running_average.2.2.2 _).2.2 (by decide)⟩

/-- C8: after any observation stream, `is_recurring` holds exactly when the
number of ghost-flagged observations has reached 5; one `updateRecord` step
never clears an already-set `is_recurring`; and a non-ghost observation
leaves the whole row (flag count, average, timestamps) unchanged. -/
theorem C8_recurring_flag :
    (∀ l : List (ℤ × Bool × ℚ),
        (observeFold l {}).is_recurring = decide (5 ≤ (flaggedScores l).length)) ∧
    (∀ (r : RepRecord) (s : ℤ) (g : Bool) (now : ℚ), r.is_recurring = true →
        (updateRecord r s g now).is_recurring = true) ∧
    (∀ (r : RepRecord) (s : ℤ) (now : ℚ), updateRecord r s false now = r) := by
  refine ⟨?_, ?_, fun r s now => rfl⟩
  · intro l
    have h := observeFold_recurring l {} (by decide)
    rw [h, observeFold_total l {}]
    simp
  · intro r s g now h
    cases g with
    | false => simpa using h
    | true =>
      rw [updateRecord_is_recurring_ghost]
      by_cases h5 : r.total_flags + 1 ≥ 5 <;> simp [h5, h]

/-- Witness for C8: five ghost flags set `is_recurring`; an update on a row
already marked recurring keeps it; a non-ghost event is a no-op. -/
theorem C8_recurring_flag_witness :
    ((observeFold
        [((70 : ℤ), true, (0 : ℚ)), ((70 : ℤ), true, (1 : ℚ)),
         ((70 : ℤ), true, (2 : ℚ)), ((70 : ℤ), true, (3 : ℚ)),
         ((70 : ℤ), true, (4 : ℚ))] {}).is_recurring
      = decide (5 ≤ (flaggedScores
        [((70 : ℤ), true, (0 : ℚ)), ((70 : ℤ), true, (1 : ℚ)),
         ((70 : ℤ), true, (2 : ℚ)), ((70 : ℤ), true, (3 : ℚ)),
         ((70 : ℤ), true, (4 : ℚ))]).length)) ∧
    ((updateRecord
        { total_flags := 5, first_flag_time := some 0, last_flag_time := some 4,
          avg_ghost_score := 70, is_recurring := true } 60 false 9).is_recurring
      = true) ∧
    (updateRecord { total_flags := 2, avg_ghost_score := 55 } 60 false 9
      = { total_flags := 2, avg_ghost_score := 55 }) :=
  ⟨C8_recurring_flag.1 _,
   C8_recurring_flag.2.1 _ 60 false 9 rfl,
   C8_recurring_flag.2.2 _ 60 9⟩

section HaversineFacts

lemma atan2_zero_one : atan2 0 1 = 0 := by
  unfold atan2
  have h1 : (⟨1, 0⟩ : ℂ) = 1 := by
    refine Complex.ext ?_ ?_ <;> simp
  rw [h1, Complex.arg_one]

lemma haversine_self (la lo : ℚ) : haversine_distance la lo la lo = 0 := by
  unfold haversine_distance radians
  simp only [sub_self, zero_mul, zero_div, Real.sin_zero, mul_zero, add_zero,
    Real.sqrt_zero, sub_zero, Real.sqrt_one, atan2_zero_one]

lemma hav_same_decide (la lo : ℚ) :
    decide (haversine_distance la lo la lo > 0.05) = false :=
  decide_eq_false (by rw [haversine_self]; norm_num)

lemma all_same_spot :
    ([((10 : ℚ), (20 : ℚ))].all fun pos =>
      ! decide (haversine_distance 10 20 pos.1 pos.2 > 0.05)) = true := by
  simp only [List.all_cons, List.all_nil, Bool.and_true]
  rw [hav_same_decide]
  rfl

end HaversineFacts

section EvalHelpers

lemma recentPositions_eq (history : List Sample) (now : ℚ)
    (h : ∀ d ∈ history, d.lat.isSome ∧ d.lon.isSome) :
    recentPositions history now = .ok ((qualifying history now).map posOf) := by
  induction history with
  | nil => rfl
  | cons d rest ih =>
    have hd := h d (List.mem_cons_self d rest)
    obtain ⟨la, hla⟩ := Option.isSome_iff_exists.mp hd.1
    obtain ⟨lo, hlo⟩ := Option.isSome_iff_exists.mp hd.2
    have hrest : ∀ x ∈ rest, x.lat.isSome ∧ x.lon.isSome := fun x hx =>
      h x (List.mem_cons_of_mem d hx)
    by_cases hq : now - d.timestamp.getD 0 ≤ 600
    · rw [recentPositions]
      rw [if_pos hq]
      rw [hla, hlo, ih hrest]
      have hfil : qualifying (d :: rest) now = d :: qualifying rest now := by
        unfold qualifying
        rw [List.filter_cons, decide_eq_true hq]
        rfl
      rw [hfil, List.map_cons]
      have hpos : posOf d = (la, lo) := by simp [posOf, hla, hlo]
      rw [hpos]
      rfl
    · rw [recentPositions]
      rw [if_neg hq, ih hrest]
      have hfil : qualifying (d :: rest) now = qualifying rest now := by
        unfold qualifying
        rw [List.filter_cons, decide_eq_false hq]
        rfl
      rw [hfil]

lemma detect_stationary_ok (m : HistMap) (vid : String) (pos : ℚ × ℚ) (now : ℚ)
    (h : ∀ d ∈ m vid, d.lat.isSome ∧ d.lon.isSome) :
    ∃ b, detect_stationary m vid pos now = .ok b := by
  unfold detect_stationary
  by_cases hl : (m vid).length < 2
  · exact ⟨false, by rw [if_pos hl]⟩
  · rw [if_neg hl, recentPositions_eq (m vid) now h]
    exact ⟨_, rfl⟩

lemma calculate_eval (m : HistMap) (s : Sample) (vid : String) (now : ℚ)
    (la lo : ℚ) (b : Bool) (hla : s.lat = some la) (hlo : s.lon = some lo)
    (hst : detect_stationary m vid (la, lo) now = .ok b) :
    calculate_ghost_score m s vid now
      = .ok (min ((if detect_stale_data s now then 40 else 0) +
          (if b then 30 else 0) + (if detect_off_route s then 30 else 0) +
          (if s.speed.getD 0 > 80 ∨ s.speed.getD 0 < 0 then 20 else 0)) 100) := by
  unfold calculate_ghost_score
  simp only [hla, hlo]
  rw [hst]
  rfl

lemma update_histAt (l : List Sample) (d : Sample) :
    update_vehicle_history (histAt l) "bus1" d = histAt ((d :: l).take 50) := by
  funext v
  unfold update_vehicle_history histAt
  by_cases hv : v = "bus1" <;> simp [hv]

lemma update_histInit (d : Sample) :
    update_vehicle_history emptyHist "bus1" d = histAt [d] := by
  funext v
  unfold update_vehicle_history emptyHist histAt
  by_cases hv : v = "bus1" <;> simp [hv]

lemma update_repInit (g : ℤ) (b : Bool) (n : ℚ) :
    update_recurring_ghost_stats (fun _ => none) "bus1" g b n
      = repAt (updateRecord {} g b n) := by
  funext v
  unfold update_recurring_ghost_stats repAt
  by_cases hv : v = "bus1" <;> simp [hv]

lemma update_repAt (r : RepRecord) (g : ℤ) (b : Bool) (n : ℚ) :
    update_recurring_ghost_stats (repAt r) "bus1" g b n
      = repAt (updateRecord r g b n) := by
  funext v
  unfold update_recurring_ghost_stats repAt
  by_cases hv : v = "bus1" <;> simp [hv]

lemma recentPositions_nil (now : ℚ) : recentPositions [] now = .ok [] := rfl

lemma recentPositions_cons_in (d : Sample) (rest : List Sample) (now la lo : ℚ)
    (tl : List (ℚ × ℚ)) (hq : now - d.timestamp.getD 0 ≤ 600)
    (hla : d.lat = some la) (hlo : d.lon = some lo)
    (htl : recentPositions rest now = .ok tl) :
    recentPositions (d :: rest) now = .ok ((la, lo) :: tl) := by
  rw [recentPositions, if_pos hq, hla, hlo, htl]
  rfl

lemma recentPositions_cons_out (d : Sample) (rest : List Sample) (now : ℚ)
    (hq : ¬ (now - d.timestamp.getD 0 ≤ 600)) :
    recentPositions (d :: rest) now = recentPositions rest now := by
  rw [recentPositions, if_neg hq]

lemma detect_stationary_histAt (L : List Sample) (now : ℚ) (pos : ℚ × ℚ)
    (hlen : ¬ L.length < 2)
    (hrp : recentPositions L now = .ok [((10 : ℚ), (20 : ℚ)), ((10 : ℚ), (20 : ℚ))]) :
    detect_stationary (histAt L) "bus1" pos now = .ok true := by
  unfold detect_stationary
  simp only [show histAt L "bus1" = L from by simp [histAt]]
  rw [if_neg hlen, hrp]
  simp only [Except.map]
  rw [if_neg (by simp)]
  refine congrArg Except.ok ?_
  show ([((10 : ℚ), (20 : ℚ))].all fun pos =>
      ! decide (haversine_distance 10 20 pos.1 pos.2 > 0.05)) = true
  exact all_same_spot

lemma analyze_scenario_init (s : Sample) (now : ℚ) (g : ℤ) (stat : Bool)
    (hvid : s.vehicle_id = some "bus1") (hla : s.lat = some 10)
    (hlo : s.lon = some 20)
    (hst : detect_stationary (histAt [s]) "bus1" (10, 20) now = .ok stat)
    (hcalc : calculate_ghost_score (histAt [s]) s "bus1" now = .ok g) :
    analyze_vehicle detInit s now
      = (⟨histAt [s], repAt (updateRecord {} g (decide (g > 50)) now)⟩,
         .ok ⟨s, g, decide (g > 50), now, detect_stale_data s now, stat,
              detect_off_route s,
              vehicleRecurring (repAt (updateRecord {} g (decide (g > 50)) now))
                "bus1" now⟩) := by
  have hH : update_vehicle_history emptyHist "bus1" s = histAt [s] :=
    update_histInit s
  unfold analyze_vehicle detInit
  simp only [hvid, hH, hcalc, hst, hla, hlo, update_repInit]

lemma analyze_scenario_step (L : List Sample) (r : RepRecord) (s : Sample)
    (now : ℚ) (g : ℤ) (stat : Bool)
    (hvid : s.vehicle_id = some "bus1") (hla : s.lat = some 10)
    (hlo : s.lon = some 20) (hlen : (s :: L).length ≤ 50)
    (hst : detect_stationary (histAt (s :: L)) "bus1" (10, 20) now = .ok stat)
    (hcalc : calculate_ghost_score (histAt (s :: L)) s "bus1" now = .ok g) :
    analyze_vehicle ⟨histAt L, repAt r⟩ s now
      = (⟨histAt (s :: L), repAt (updateRecord r g (decide (g > 50)) now)⟩,
         .ok ⟨s, g, decide (g > 50), now, detect_stale_data s now, stat,
              detect_off_route s,
              vehicleRecurring (repAt (updateRecord r g (decide (g > 50)) now))
                "bus1" now⟩) := by
  have hH : update_vehicle_history (histAt L) "bus1" s = histAt (s :: L) := by
    rw [update_histAt, List.take_of_length_le hlen]
  unfold analyze_vehicle
  simp only [hvid, hH, hcalc, hst, hla, hlo, update_repAt]

lemma run1_eq : run1 = (⟨histAt [sam0], repAt ({} : RepRecord)⟩, .ok enr0) := by
  have hst : detect_stationary (histAt [sam0]) "bus1" (10, 20) 10000
      = .ok false := rfl
  have hstale : detect_stale_data sam0 10000 = true := by
    norm_num [detect_stale_data, sam0, scenarioSample]
  have hcalc : calculate_ghost_score (histAt [sam0]) sam0 "bus1" 10000
      = .ok 40 := by
    rw [calculate_eval (histAt [sam0]) sam0 "bus1" 10000 10 20 false rfl rfl hst,
      hstale]
    norm_num [sam0, scenarioSample, detect_off_route]
  unfold run1
  rw [analyze_scenario_init sam0 10000 40 false rfl rfl rfl hst hcalc]
  rw [show decide ((40 : ℤ) > 50) = false from by decide]
  rw [show updateRecord {} 40 false 10000 = ({} : RepRecord) from rfl]
  rw [show vehicleRecurring (repAt {}) "bus1" 10000 = false from by
    simp [vehicleRecurring, repAt]]
  rw [hstale]
  rfl

lemma run2_eq : run2 = (⟨histAt [sam1, sam0], repAt rec1⟩, .ok enr1) := by
  have e1 : recentPositions [sam0] (10180 : ℚ) = .ok [((10 : ℚ), (20 : ℚ))] :=
    recentPositions_cons_in sam0 [] 10180 10 20 []
      (by norm_num [sam0, scenarioSample]) rfl rfl (recentPositions_nil _)
  have e2 : recentPositions [sam1, sam0] (10180 : ℚ)
      = .ok [((10 : ℚ), (20 : ℚ)), ((10 : ℚ), (20 : ℚ))] :=
    recentPositions_cons_in sam1 [sam0] 10180 10 20 _
      (by norm_num [sam1, scenarioSample]) rfl rfl e1
  have hst := detect_stationary_histAt [sam1, sam0] 10180 (10, 20) (by simp) e2
  have hstale : detect_stale_data sam1 10180 = true := by
    norm_num [detect_stale_data, sam1, scenarioSample]
  have hcalc : calculate_ghost_score (histAt [sam1, sam0]) sam1 "bus1" 10180
      = .ok 70 := by
    rw [calculate_eval (histAt [sam1, sam0]) sam1 "bus1" 10180 10 20 true rfl rfl
      hst, hstale]
    norm_num [sam1, scenarioSample, detect_off_route]
  unfold run2
  rw [run1_eq]
  show analyze_vehicle ⟨histAt [sam0], repAt {}⟩ sam1 10180 = _
  rw [analyze_scenario_step [sam0] {} sam1 10180 70 true rfl rfl rfl (by simp)
    hst hcalc]
  rw [show decide ((70 : ℤ) > 50) = true from by decide]
  rw [show updateRecord {} 70 true 10180 = rec1 from by
    norm_num [updateRecord, rec1]]
  rw [show vehicleRecurring (repAt rec1) "bus1" 10180 = false from by
    simp [vehicleRecurring, repAt, rec1]]
  rw [hstale]
  rfl

lemma run3_eq : run3 = (⟨histAt [sam2, sam1, sam0], repAt rec2⟩, .ok enr2) := by
  have e0 : recentPositions [sam0] (10360 : ℚ) = recentPositions [] 10360 :=
    recentPositions_cons_out sam0 [] 10360 (by norm_num [sam0, scenarioSample])
  have e1 : recentPositions [sam1, sam0] (10360 : ℚ) = .ok [((10 : ℚ), (20 : ℚ))] :=
    recentPositions_cons_in sam1 [sam0] 10360 10 20 []
      (by norm_num [sam1, scenarioSample]) rfl rfl
      (by rw [e0]; exact recentPositions_nil _)
  have e2 : recentPositions [sam2, sam1, sam0] (10360 : ℚ)
      = .ok [((10 : ℚ), (20 : ℚ)), ((10 : ℚ), (20 : ℚ))] :=
    recentPositions_cons_in sam2 [sam1, sam0] 10360 10 20 _
      (by norm_num [sam2, scenarioSample]) rfl rfl e1
  have hst := detect_stationary_histAt [sam2, sam1, sam0] 10360 (10, 20)
    (by simp) e2
  have hstale : detect_stale_data sam2 10360 = true := by
    norm_num [detect_stale_data, sam2, scenarioSample]
  have hcalc : calculate_ghost_score (histAt [sam2, sam1, sam0]) sam2 "bus1"
      10360 = .ok 70 := by
    rw [calculate_eval (histAt [sam2, sam1, sam0]) sam2 "bus1" 10360 10 20 true
      rfl rfl hst, hstale]
    norm_num [sam2, scenarioSample, detect_off_route]
  unfold run3
  rw [run2_eq]
  show analyze_vehicle ⟨histAt [sam1, sam0], repAt rec1⟩ sam2 10360 = _
  rw [analyze_scenario_step [sam1, sam0] rec1 sam2 10360 70 true rfl rfl rfl
    (by simp) hst hcalc]
  rw [show decide ((70 : ℤ) > 50) = true from by decide]
  rw [show updateRecord rec1 70 true 10360 = rec2 from by
    norm_num [updateRecord, rec1, rec2]]
  rw [show vehicleRecurring (repAt rec2) "bus1" 10360 = false from by
    simp [vehicleRecurring, repAt, rec2]]
  rw [hstale]
  rfl

lemma run4_eq : run4
    = (⟨histAt [sam3, sam2, sam1, sam0], repAt rec3⟩, .ok enr3) := by
  have e0 : recentPositions [sam1, sam0] (10540 : ℚ) = .ok [] := by
    rw [recentPositions_cons_out sam1 [sam0] 10540
      (by norm_num [sam1, scenarioSample]),
      recentPositions_cons_out sam0 [] 10540
      (by norm_num [sam0, scenarioSample])]
    exact recentPositions_nil _
  have e1 : recentPositions [sam2, sam1, sam0] (10540 : ℚ)
      = .ok [((10 : ℚ), (20 : ℚ))] :=
    recentPositions_cons_in sam2 [sam1, sam0] 10540 10 20 []
      (by norm_num [sam2, scenarioSample]) rfl rfl e0
  have e2 : recentPositions [sam3, sam2, sam1, sam0] (10540 : ℚ)
      = .ok [((10 : ℚ), (20 : ℚ)), ((10 : ℚ), (20 : ℚ))] :=
    recentPositions_cons_in sam3 [sam2, sam1, sam0] 10540 10 20 _
      (by norm_num [sam3, scenarioSample]) rfl rfl e1
  have hst := detect_stationary_histAt [sam3, sam2, sam1, sam0] 10540 (10, 20)
    (by simp) e2
  have hstale : detect_stale_data sam3 10540 = true := by
    norm_num [detect_stale_data, sam3, scenarioSample]
  have hcalc : calculate_ghost_score (histAt [sam3, sam2, sam1, sam0]) sam3
      "bus1" 10540 = .ok 70 := by
    rw [calculate_eval (histAt [sam3, sam2, sam1, sam0]) sam3 "bus1" 10540 10 20
      true rfl rfl hst, hstale]
    norm_num [sam3, scenarioSample, detect_off_route]
  unfold run4
  rw [run3_eq]
  show analyze_vehicle ⟨histAt [sam2, sam1, sam0], repAt rec2⟩ sam3 10540 = _
  rw [analyze_scenario_step [sam2, sam1, sam0] rec2 sam3 10540 70 true rfl rfl
    rfl (by simp) hst hcalc]
  rw [show decide ((70 : ℤ) > 50) = true from by decide]
  rw [show updateRecord rec2 70 true 10540 = rec3 from by
    norm_num [updateRecord, rec2, rec3]]
  rw [show vehicleRecurring (repAt rec3) "bus1" 10540 = false from by
    simp [vehicleRecurring, repAt, rec3]]
  rw [hstale]
  rfl

lemma run5_eq : run5
    = (⟨histAt [sam4, sam3, sam2, sam1, sam0], repAt rec4⟩, .ok enr4) := by
  have e0 : recentPositions [sam2, sam1, sam0] (10720 : ℚ) = .ok [] := by
    rw [recentPositions_cons_out sam2 [sam1, sam0] 10720
      (by norm_num [sam2, scenarioSample]),
      recentPositions_cons_out sam1 [sam0] 10720
      (by norm_num [sam1, scenarioSample]),
      recentPositions_cons_out sam0 [] 10720
      (by norm_num [sam0, scenarioSample])]
    exact recentPositions_nil _
  have e1 : recentPositions [sam3, sam2, sam1, sam0] (10720 : ℚ)
      = .ok [((10 : ℚ), (20 : ℚ))] :=
    recentPositions_cons_in sam3 [sam2, sam1, sam0] 10720 10 20 []
      (by norm_num [sam3, scenarioSample]) rfl rfl e0
  have e2 : recentPositions [sam4, sam3, sam2, sam1, sam0] (10720 : ℚ)
      = .ok [((10 : ℚ), (20 : ℚ)), ((10 : ℚ), (20 : ℚ))] :=
    recentPositions_cons_in sam4 [sam3, sam2, sam1, sam0] 10720 10 20 _
      (by norm_num [sam4, scenarioSample]) rfl rfl e1
  have hst := detect_stationary_histAt [sam4, sam3, sam2, sam1, sam0] 10720
    (10, 20) (by simp) e2
  have hstale : detect_stale_data sam4 10720 = true := by
    norm_num [detect_stale_data, sam4, scenarioSample]
  have hcalc : calculate_ghost_score (histAt [sam4, sam3, sam2, sam1, sam0]) sam4
      "bus1" 10720 = .ok 70 := by
    rw [calculate_eval (histAt [sam4, sam3, sam2, sam1, sam0]) sam4 "bus1" 10720
      10 20 true rfl rfl hst, hstale]
    norm_num [sam4, scenarioSample, detect_off_route]
  unfold run5
  rw [run4_eq]
  show analyze_vehicle ⟨histAt [sam3, sam2, sam1, sam0], repAt rec3⟩ sam4
    10720 = _
  rw [analyze_scenario_step [sam3, sam2, sam1, sam0] rec3 sam4 10720 70 true rfl
    rfl rfl (by simp) hst hcalc]
  rw [show decide ((70 : ℤ) > 50) = true from by decide]
  rw [show updateRecord rec3 70 true 10720 = rec4 from by
    norm_num [updateRecord, rec3, rec4]]
  rw [show vehicleRecurring (repAt rec4) "bus1" 10720 = false from by
    simp [vehicleRecurring, repAt, rec4]]
  rw [hstale]
  rfl

lemma run6_eq : run6
    = (⟨histAt [sam5, sam4, sam3, sam2, sam1, sam0], repAt rec5⟩, .ok enr5) := by
  have e0 : recentPositions [sam3, sam2, sam1, sam0] (10900 : ℚ) = .ok [] := by
    rw [recentPositions_cons_out sam3 [sam2, sam1, sam0] 10900
      (by norm_num [sam3, scenarioSample]),
      recentPositions_cons_out sam2 [sam1, sam0] 10900
      (by norm_num [sam2, scenarioSample]),
      recentPositions_cons_out sam1 [sam0] 10900
      (by norm_num [sam1, scenarioSample]),
      recentPositions_cons_out sam0 [] 10900
      (by norm_num [sam0, scenarioSample])]
    exact recentPositions_nil _
  have e1 : recentPositions [sam4, sam3, sam2, sam1, sam0] (10900 : ℚ)
      = .ok [((10 : ℚ), (20 : ℚ))] :=
    recentPositions_cons_in sam4 [sam3, sam2, sam1, sam0] 10900 10 20 []
      (by norm_num [sam4, scenarioSample]) rfl rfl e0
  have e2 : recentPositions [sam5, sam4, sam3, sam2, sam1, sam0] (10900 : ℚ)
      = .ok [((10 : ℚ), (20 : ℚ)), ((10 : ℚ), (20 : ℚ))] :=
    recentPositions_cons_in sam5 [sam4, sam3, sam2, sam1, sam0] 10900 10 20 _
      (by norm_num [sam5, scenarioSample]) rfl rfl e1
  have hst := detect_stationary_histAt [sam5, sam4, sam3, sam2, sam1, sam0]
    10900 (10, 20) (by simp) e2
  have hstale : detect_stale_data sam5 10900 = true := by
    norm_num [detect_stale_data, sam5, scenarioSample]
  have hcalc : calculate_ghost_score (histAt [sam5, sam4, sam3, sam2, sam1, sam0])
      sam5 "bus1" 10900 = .ok 70 := by
    rw [calculate_eval (histAt [sam5, sam4, sam3, sam2, sam1, sam0]) sam5 "bus1"
      10900 10 20 true rfl rfl hst, hstale]
    norm_num [sam5, scenarioSample, detect_off_route]
  unfold run6
  rw [run5_eq]
  show analyze_vehicle ⟨histAt [sam4, sam3, sam2, sam1, sam0], repAt rec4⟩ sam5
    10900 = _
  rw [analyze_scenario_step [sam4, sam3, sam2, sam1, sam0] rec4 sam5 10900 70
    true rfl rfl rfl (by simp) hst hcalc]
  rw [show decide ((70 : ℤ) > 50) = true from by decide]
  rw [show updateRecord rec4 70 true 10900 = rec5 from by
    norm_num [updateRecord, rec4, rec5]]
  rw [show vehicleRecurring (repAt rec5) "bus1" 10900 = true from by
    norm_num [vehicleRecurring, repAt, rec5]]
  rw [hstale]
  rfl

lemma analyze_no_vid (st : DetState) (s : Sample) (now : ℚ)
    (hv : s.vehicle_id = none) :
    analyze_vehicle st s now = (st, .error "vehicle_id") := by
  unfold analyze_vehicle
  simp only [hv]

lemma analyze_no_lat (st : DetState) (s : Sample) (now : ℚ) (vid : String)
    (hv : s.vehicle_id = some vid) (hla : s.lat = none) :
    analyze_vehicle st s now
      = ({ st with hist := update_vehicle_history st.hist vid s },
         .error "lat") := by
  have hc : calculate_ghost_score (update_vehicle_history st.hist vid s) s vid
      now = .error "lat" := by
    unfold calculate_ghost_score
    simp only [hla]
  unfold analyze_vehicle
  simp only [hv, hc]

lemma analyze_no_lon (st : DetState) (s : Sample) (now : ℚ) (vid : String)
    (la : ℚ) (hv : s.vehicle_id = some vid) (hla : s.lat = some la)
    (hlo : s.lon = none) :
    analyze_vehicle st s now
      = ({ st with hist := update_vehicle_history st.hist vid s },
         .error "lon") := by
  have hc : calculate_ghost_score (update_vehicle_history st.hist vid s) s vid
      now = .error "lon" := by
    unfold calculate_ghost_score
    simp only [hla, hlo]
  unfold analyze_vehicle
  simp only [hv, hc]

lemma analyze_err_calc (st : DetState) (s : Sample) (now : ℚ) (vid : String)
    (err : String) (hv : s.vehicle_id = some vid)
    (hc : calculate_ghost_score (update_vehicle_history st.hist vid s) s vid now
      = .error err) :
    analyze_vehicle st s now
      = ({ st with hist := update_vehicle_history st.hist vid s },
         .error err) := by
  unfold analyze_vehicle
  simp only [hv, hc]

lemma calculate_ok_stationary (m : HistMap) (s : Sample) (vid : String)
    (now : ℚ) (g : ℤ) (la lo : ℚ) (hla : s.lat = some la)
    (hlo : s.lon = some lo) (hc : calculate_ghost_score m s vid now = .ok g) :
    ∃ b, detect_stationary m vid (la, lo) now = .ok b := by
  unfold calculate_ghost_score at hc
  simp only [hla, hlo] at hc
  cases hb : detect_stationary m vid (la, lo) now with
  | error err =>
    rw [hb] at hc
    exact absurd hc (by simp [Except.map])
  | ok b => exact ⟨b, rfl⟩

lemma analyze_ok (st : DetState) (s : Sample) (now : ℚ) (vid : String)
    (la lo : ℚ) (b : Bool) (g : ℤ) (hv : s.vehicle_id = some vid)
    (hla : s.lat = some la) (hlo : s.lon = some lo)
    (hb : detect_stationary (update_vehicle_history st.hist vid s) vid (la, lo)
      now = .ok b)
    (hg : calculate_ghost_score (update_vehicle_history st.hist vid s) s vid now
      = .ok g) :
    analyze_vehicle st s now
      = (⟨update_vehicle_history st.hist vid s,
          update_recurring_ghost_stats st.rep vid g (decide (g > 50)) now⟩,
         .ok ⟨s, g, decide (g > 50), now, detect_stale_data s now, b,
              detect_off_route s,
              vehicleRecurring (update_recurring_ghost_stats st.rep vid g
                (decide (g > 50)) now) vid now⟩) := by
  unfold analyze_vehicle
  simp only [hv, hg, hla, hlo, hb]

end EvalHelpers

/-- C4: `detect_stationary` returns a value (no error) on any history whose
entries carry coordinates; the value is false whenever fewer than 2 entries
qualify (timestamp, 0 when missing, within 600 s of `now`), and with at
least 2 qualifying entries it is true iff the haversine distance from the
first qualifying entry to every other qualifying entry is at most
0.05 km. -/
theorem C4_stationary_rule :
    ∀ (m : HistMap) (vehicle_id : String) (current_pos : ℚ × ℚ) (now : ℚ),
      (∀ d ∈ m vehicle_id, d.lat.isSome ∧ d.lon.isSome) →
      ∃ b, detect_stationary m vehicle_id current_pos now = .ok b ∧
        ((qualifying (m vehicle_id) now).length < 2 → b = false) ∧
        (∀ q rest, (qualifying (m vehicle_id) now).map posOf = q :: rest →
          2 ≤ (qualifying (m vehicle_id) now).length →
          (b = true ↔ ∀ p ∈ rest,
            haversine_distance q.1 q.2 p.1 p.2 ≤ 0.05)) := by
  intro m vid pos now h
  have hqlen : (qualifying (m vid) now).length ≤ (m vid).length :=
    List.length_filter_le _ _
  by_cases hlen : (m vid).length < 2
  · refine ⟨false, ?_, fun _ => rfl, ?_⟩
    · unfold detect_stationary
      rw [if_pos hlen]
    · intro q rest _ h2
      exfalso
      omega
  · have hrp := recentPositions_eq (m vid) now h
    refine ⟨if ((qualifying (m vid) now).map posOf).length < 2 then false
      else match ((qualifying (m vid) now).map posOf) with
        | [] => false
        | q :: rest => rest.all fun p =>
            ! decide (haversine_distance q.1 q.2 p.1 p.2 > 0.05), ?_, ?_, ?_⟩
    · unfold detect_stationary
      rw [if_neg hlen, hrp]
      rfl
    · intro h2
      rw [if_pos]
      rwa [List.length_map]
    · intro q rest hmap h2
      have hnot : ¬ ((qualifying (m vid) now).map posOf).length < 2 := by
        rw [List.length_map]
        omega
      rw [if_neg hnot, hmap]
      simp only [List.all_eq_true, Bool.not_eq_eq_eq_not, Bool.not_true,
        decide_eq_false_iff_not, not_lt]

/-- Witness for C4 at a concrete two-entry same-spot history. -/
theorem C4_stationary_rule_witness :
    ∃ b, detect_stationary (histAt [scenarioSample 100, scenarioSample 150])
        "bus1" (0, 0) 200 = .ok b ∧
      ((qualifying ((histAt [scenarioSample 100, scenarioSample 150]) "bus1")
          200).length < 2 → b = false) ∧
      (∀ q rest, (qualifying ((histAt [scenarioSample 100, scenarioSample 150])
          "bus1") 200).map posOf = q :: rest →
        2 ≤ (qualifying ((histAt [scenarioSample 100, scenarioSample 150])
            "bus1") 200).length →
        (b = true ↔ ∀ p ∈ rest,
          haversine_distance q.1 q.2 p.1 p.2 ≤ 0.05)) :=
  C4_stationary_rule (histAt [scenarioSample 100, scenarioSample 150]) "bus1"
    (0, 0) 200 (by simp [histAt, scenarioSample])

/-- C6: the ghost score equals the sum of the weights of the fired rules
(stale 40, stationary 30, off-route 30, speed anomaly 20 for speed above 80
or negative) capped at 100; that capped sum always lies in [0, 100] and is
monotone as more rules fire; and the enriched record's ghost verdict holds
iff its score exceeds 50. -/
theorem C6_scoring_engine :
    (∀ (m : HistMap) (s : Sample) (vehicle_id : String) (now : ℚ)
        (la lo : ℚ) (b : Bool), s.lat = some la → s.lon = some lo →
        detect_stationary m vehicle_id (la, lo) now = .ok b →
        calculate_ghost_score m s vehicle_id now
          = .ok (sumCappedScore (detect_stale_data s now) b (detect_off_route s)
              (speed_anomaly_rule s))) ∧
    (∀ b1 b2 b3 b4 : Bool, 0 ≤ sumCappedScore b1 b2 b3 b4 ∧
        sumCappedScore b1 b2 b3 b4 ≤ 100) ∧
    (∀ b1 b1' b2 b2' b3 b3' b4 b4' : Bool,
        (b1 = true → b1' = true) → (b2 = true → b2' = true) →
        (b3 = true → b3' = true) → (b4 = true → b4' = true) →
        sumCappedScore b1 b2 b3 b4 ≤ sumCappedScore b1' b2' b3' b4') ∧
    (∀ (st : DetState) (s : Sample) (now : ℚ) (st2 : DetState) (e : Enriched),
        analyze_vehicle st s now = (st2, .ok e) →
        (e.is_ghost = true ↔ e.ghost_score > 50)) := by
  refine ⟨?_, by decide, by decide, ?_⟩
  · intro m s vid now la lo b hla hlo hb
    rw [calculate_eval m s vid now la lo b hla hlo hb]
    unfold sumCappedScore speed_anomaly_rule
    simp only [decide_eq_true_eq]
  · intro st s now st2 e h
    cases hv : s.vehicle_id with
    | none =>
      rw [analyze_no_vid st s now hv] at h
      exact absurd h (by simp)
    | some vid =>
      cases hla : s.lat with
      | none =>
        rw [analyze_no_lat st s now vid hv hla] at h
        exact absurd h (by simp)
      | some la =>
        cases hlo : s.lon with
        | none =>
          rw [analyze_no_lon st s now vid la hv hla hlo] at h
          exact absurd h (by simp)
        | some lo =>
          cases hcal : calculate_ghost_score (update_vehicle_history st.hist vid s)
              s vid now with
          | error err =>
            rw [analyze_err_calc st s now vid err hv hcal] at h
            exact absurd h (by simp)
          | ok g =>
            obtain ⟨b, hb⟩ := calculate_ok_stationary _ s vid now g la lo hla
              hlo hcal
            rw [analyze_ok st s now vid la lo b g hv hla hlo hb hcal] at h
            simp only [Prod.mk.injEq, Except.ok.injEq] at h
            obtain ⟨-, he⟩ := h
            subst he
            simp only [decide_eq_true_eq]

/-- C1: the claimed end-to-end outcome is false on the code: feeding the
five same-spot, 400-second-stale, speed-0 samples spaced 180 s apart does
not yield score 100 with a recurring-ghost flag on the 5th sample (the
score is 70 and the vehicle has only 4 accumulated flags there). -/
theorem C1_counterexample :
    ¬ (∃ e, run5.2 = .ok e ∧ e.ghost_score = 100 ∧ e.is_recurring_ghost = true) := by
  rintro ⟨e, he, h100, -⟩
  rw [run5_eq] at he
  simp only [Except.ok.injEq] at he
  subst he
  norm_num [enr4] at h100

/-- C1 amended: in the five-sample scenario the 5th sample yields ghost
score 70 (stale +40 and stationary +30; speed 0 fires no speed anomaly and
off-route is disabled) with `is_ghost = true` but `is_recurring_ghost`
still false, and a 6th such sample (the 5th ghost flag) turns
`is_recurring_ghost` true. -/
theorem C1_amended :
    run5.2 = .ok enr4 ∧ enr4.ghost_score = 70 ∧ enr4.is_ghost = true ∧
    enr4.is_recurring_ghost = false ∧
    run6.2 = .ok enr5 ∧ enr5.ghost_score = 70 ∧ enr5.is_ghost = true ∧
    enr5.is_recurring_ghost = true := by
  refine ⟨?_, rfl, rfl, rfl, ?_, rfl, rfl, rfl⟩
  · rw [run5_eq]
  · rw [run6_eq]

/-- C2: the claim is false on the code: the `detection_rules` dict built by
`analyze_vehicle` holds only the stale, stationary and off-route flags — no
`speed_anomaly` key — as the concrete first scenario run shows. -/
theorem C2_counterexample :
    run1.2 = .ok enr0 ∧ "speed_anomaly" ∉ detectionRuleKeys := by
  refine ⟨?_, by decide⟩
  rw [run1_eq]

/-- C2 amended: every successfully enriched record carries the keys of its
input sample plus `ghost_score`, `is_ghost`, `detection_timestamp`,
`detection_rules` and `is_recurring_ghost`; for an ingester-shaped sample
(all eight base fields present) that includes all the listed field names;
the per-rule flags present are exactly `stale`, `stationary` and
`off_route` — the `speed_anomaly` flag is absent. -/
theorem C2_amended :
    (∀ (st : DetState) (s : Sample) (now : ℚ) (st2 : DetState) (e : Enriched),
        analyze_vehicle st s now = (st2, .ok e) →
        Enriched.keys e = enrichedKeys s) ∧
    (∀ s : Sample, s.vehicle_id.isSome → s.trip_id.isSome → s.route_id.isSome →
        s.lat.isSome → s.lon.isSome → s.timestamp.isSome → s.speed.isSome →
        s.bearing.isSome →
        ("vehicle_id" ∈ enrichedKeys s ∧ "route_id" ∈ enrichedKeys s ∧
         "trip_id" ∈ enrichedKeys s ∧ "lat" ∈ enrichedKeys s ∧
         "lon" ∈ enrichedKeys s ∧ "speed" ∈ enrichedKeys s ∧
         "bearing" ∈ enrichedKeys s ∧ "timestamp" ∈ enrichedKeys s ∧
         "ghost_score" ∈ enrichedKeys s ∧ "is_ghost" ∈ enrichedKeys s ∧
         "is_recurring_ghost" ∈ enrichedKeys s ∧
         "detection_timestamp" ∈ enrichedKeys s ∧
         "detection_rules" ∈ enrichedKeys s)) ∧
    ("stale" ∈ detectionRuleKeys ∧ "stationary" ∈ detectionRuleKeys ∧
     "off_route" ∈ detectionRuleKeys ∧ "speed_anomaly" ∉ detectionRuleKeys) := by
  refine ⟨?_, ?_, by decide⟩
  · intro st s now st2 e h
    cases hv : s.vehicle_id with
    | none =>
      rw [analyze_no_vid st s now hv] at h
      exact absurd h (by simp)
    | some vid =>
      cases hla : s.lat with
      | none =>
        rw [analyze_no_lat st s now vid hv hla] at h
        exact absurd h (by simp)
      | some la =>
        cases hlo : s.lon with
        | none =>
          rw [analyze_no_lon st s now vid la hv hla hlo] at h
          exact absurd h (by simp)
        | some lo =>
          cases hcal : calculate_ghost_score (update_vehicle_history st.hist vid s)
              s vid now with
          | error err =>
            rw [analyze_err_calc st s now vid err hv hcal] at h
            exact absurd h (by simp)
          | ok g =>
            obtain ⟨b, hb⟩ := calculate_ok_stationary _ s vid now g la lo hla
              hlo hcal
            rw [analyze_ok st s now vid la lo b g hv hla hlo hb hcal] at h
            simp only [Prod.mk.injEq, Except.ok.injEq] at h
            obtain ⟨-, he⟩ := h
            subst he
            rfl
  · intro s h1 h2 h3 h4 h5 h6 h7 h8
    simp [enrichedKeys, sampleKeys, h1, h2, h3, h4, h5, h6, h7, h8]

/-- Witness for C2 on the first scenario run: the produced record's keys
are the sample's keys plus the five detection fields, every listed field
name occurs, and the rule-flag keys are exactly stale, stationary and
off-route. -/
theorem C2_amended_witness :
    (Enriched.keys enr0 = enrichedKeys sam0) ∧
    ("vehicle_id" ∈ enrichedKeys sam0 ∧ "route_id" ∈ enrichedKeys sam0 ∧
     "trip_id" ∈ enrichedKeys sam0 ∧ "lat" ∈ enrichedKeys sam0 ∧
     "lon" ∈ enrichedKeys sam0 ∧ "speed" ∈ enrichedKeys sam0 ∧
     "bearing" ∈ enrichedKeys sam0 ∧ "timestamp" ∈ enrichedKeys sam0 ∧
     "ghost_score" ∈ enrichedKeys sam0 ∧ "is_ghost" ∈ enrichedKeys sam0 ∧
     "is_recurring_ghost" ∈ enrichedKeys sam0 ∧
     "detection_timestamp" ∈ enrichedKeys sam0 ∧
     "detection_rules" ∈ enrichedKeys sam0) ∧
    ("stale" ∈ detectionRuleKeys ∧ "stationary" ∈ detectionRuleKeys ∧
     "off_route" ∈ detectionRuleKeys ∧ "speed_anomaly" ∉ detectionRuleKeys) :=
  ⟨C2_amended.1 detInit sam0 10000 ⟨histAt [sam0], repAt {}⟩ enr0 run1_eq,
   C2_amended.2.1 sam0 rfl rfl rfl rfl rfl rfl rfl rfl,
   C2_amended.2.2⟩

/-- C3: the claim is false on the code: a sample with `vehicle_id` and
`lat` but no `lon` is rejected with a lon KeyError, yet its vehicle's
history window has already been mutated — the sample was recorded before
the coordinates were read. -/
theorem C3_counterexample :
    (analyze_vehicle detInit samNoLon 0).2 = .error "lon" ∧
    (analyze_vehicle detInit samNoLon 0).1.hist "v1" = [samNoLon] ∧
    detInit.hist "v1" = [] :=
  ⟨rfl, rfl, rfl⟩

/-- C3 amended: `analyze_vehicle` fails exactly on a missing `vehicle_id`,
`lat` or `lon` (the success direction holding for histories whose entries
carry coordinates); a missing `vehicle_id` leaves the state untouched, but
a missing `lat` or `lon` fails only after the sample has been recorded into
the vehicle's history window; the reputation table is unchanged in every
failure case. -/
theorem C3_amended :
    (∀ (st : DetState) (s : Sample) (now : ℚ), s.vehicle_id = none →
        analyze_vehicle st s now = (st, .error "vehicle_id")) ∧
    (∀ (st : DetState) (s : Sample) (now : ℚ) (vid : String),
        s.vehicle_id = some vid → s.lat = none →
        analyze_vehicle st s now
          = ({ st with hist := update_vehicle_history st.hist vid s },
             .error "lat")) ∧
    (∀ (st : DetState) (s : Sample) (now : ℚ) (vid : String) (la : ℚ),
        s.vehicle_id = some vid → s.lat = some la → s.lon = none →
        analyze_vehicle st s now
          = ({ st with hist := update_vehicle_history st.hist vid s },
             .error "lon")) ∧
    (∀ (st : DetState) (s : Sample) (now : ℚ) (vid : String) (la lo : ℚ),
        s.vehicle_id = some vid → s.lat = some la → s.lon = some lo →
        (∀ d ∈ st.hist vid, d.lat.isSome ∧ d.lon.isSome) →
        ∃ st2 e, analyze_vehicle st s now = (st2, .ok e)) := by
  refine ⟨fun st s now hv => analyze_no_vid st s now hv,
    fun st s now vid hv hla => analyze_no_lat st s now vid hv hla,
    fun st s now vid la hv hla hlo => analyze_no_lon st s now vid la hv hla hlo,
    ?_⟩
  intro st s now vid la lo hv hla hlo hwf
  have hwf1 : ∀ d ∈ (update_vehicle_history st.hist vid s) vid,
      d.lat.isSome ∧ d.lon.isSome := by
    intro d hd
    have hv1 : (update_vehicle_history st.hist vid s) vid
        = (s :: st.hist vid).take 50 := by
      simp [update_vehicle_history]
    rw [hv1] at hd
    have hd2 : d ∈ s :: st.hist vid := List.take_subset _ _ hd
    rcases List.mem_cons.mp hd2 with h1 | h1
    · subst h1
      exact ⟨by rw [hla]; rfl, by rw [hlo]; rfl⟩
    · exact hwf d h1
  obtain ⟨b, hb⟩ := detect_stationary_ok _ vid (la, lo) now hwf1
  have hg := calculate_eval _ s vid now la lo b hla hlo hb
  exact ⟨_, _, analyze_ok st s now vid la lo b _ hv hla hlo hb hg⟩

/-- Witness for C3 at concrete samples: missing `vehicle_id` leaves the
state alone, missing `lat` or `lon` errors with the history already
updated, and a sample with all three required fields succeeds on the empty
state. -/
theorem C3_amended_witness :
    (analyze_vehicle detInit samNoVid 0 = (detInit, .error "vehicle_id")) ∧
    (analyze_vehicle detInit samNoLat 0
        = ({ detInit with
              hist := update_vehicle_history detInit.hist "v2" samNoLat },
           .error "lat")) ∧
    (analyze_vehicle detInit samNoLon 0
        = ({ detInit with
              hist := update_vehicle_history detInit.hist "v1" samNoLon },
           .error "lon")) ∧
    (∃ st2 e, analyze_vehicle detInit sam0 10000 = (st2, .ok e)) :=
  ⟨C3_amended.1 detInit samNoVid 0 rfl,
   C3_amended.2.1 detInit samNoLat 0 "v2" rfl rfl,
   C3_amended.2.2.1 detInit samNoLon 0 "v1" 10 rfl rfl rfl,
   C3_amended.2.2.2 detInit sam0 10000 "bus1" 10 20 rfl rfl rfl
     (by simp [detInit, emptyHist])⟩

/-- Witness for C6: the scoring identity on an empty history, bounds and
monotonicity at concrete rule vectors, and the verdict-threshold link on the
first scenario record. -/
theorem C6_scoring_engine_witness :
    (calculate_ghost_score emptyHist sam0 "bus1" 10000
        = .ok (sumCappedScore (detect_stale_data sam0 10000) false
            (detect_off_route sam0) (speed_anomaly_rule sam0))) ∧
    (0 ≤ sumCappedScore true true false false ∧
      sumCappedScore true true false false ≤ 100) ∧
    (sumCappedScore false false false false ≤ sumCappedScore true true true true) ∧
    (enr0.is_ghost = true ↔ enr0.ghost_score > 50) :=
  ⟨C6_scoring_engine.1 emptyHist sam0 "bus1" 10000 10 20 false rfl rfl rfl,
   C6_scoring_engine.2.1 true true false false,
   C6_scoring_engine.2.2.1 false true false true false true false true
     (fun _ => rfl) (fun _ => rfl) (fun _ => rfl) (fun _ => rfl),
   C6_scoring_engine.2.2.2 detInit sam0 10000 ⟨histAt [sam0], repAt {}⟩ enr0
     run1_eq⟩

end GhostBus
